import Mathlib

/-!
Verification of the SideSwap Bridge connection-resilience and request-correlation
engine (`src/server.js`).

The development shallowly embeds the pieces of the JavaScript source that the
claims are about:

* a JSON value model (the code exchanges `JSON.parse`d / `JSON.stringify`d data),
* the CONFIG defaults,
* `getConnectionState`,
* the WebSocket `message` handler (envelope routing and resolution),
* the guard and envelope construction of `sendWsRequest`,
* the recursive timeout/retry path of `sendWsRequest` and its backoff arithmetic,
* the reconnect backoff of the `close` handler,
* an event-step machine combining the `close`, `message`, timeout and retry
  handlers acting on the `inflightRequests` correlation table,
* a timed model of `sendHeartbeat` and the pong timer.

JavaScript machine numbers are modelled as `ℚ` (all the constants involved are
small integers, far from any floating-point rounding), identifiers produced by
`uuidv4()` are modelled as an externally supplied stream of strings (the code
relies only on their uniqueness), and promise `resolve`/`reject` pairs are
identified by a natural-number handle.
-/

namespace SideSwapBridge

/-- JSON values as produced by `JSON.parse`: the data the bridge forwards.
Numbers are restricted to integers (every numeric constant the claims touch is
one). -/
inductive Json where
  | null : Json
  | bool (b : Bool) : Json
  | num (n : Int) : Json
  | str (s : String) : Json
  | arr (xs : List Json) : Json
  | obj (fields : List (String × Json)) : Json

/-- Property access `v.k` of JavaScript, on a parsed JSON value: a field of an
object, `undefined` (here `none`) in every other case. -/
def Json.getField (j : Json) (k : String) : Option Json :=
  match j with
  | Json.obj fs => (fs.find? (fun f => f.1 = k)).map (fun f => f.2)
  | _ => none

/-- JavaScript truthiness of a parsed JSON value (`null`, `false`, `0` and `""`
are falsy; objects and arrays are always truthy). -/
def Json.truthy : Json → Bool
  | Json.null => false
  | Json.bool b => b
  | Json.num n => n != 0
  | Json.str s => s != ""
  | Json.arr _ => true
  | Json.obj _ => true

/-- Truthiness of the JavaScript expression `v.k` (an absent field is
`undefined`, hence falsy). -/
def Json.truthyField (j : Json) (k : String) : Bool :=
  match j.getField k with
  | some v => v.truthy
  | none => false

/-- String literal serialization of `JSON.stringify`: quotes, with `"` and `\`
escaped (the only escapes the bridged payloads exercise). -/
def jsonQuote (s : String) : String :=
  "\"" ++ String.mk (s.toList.flatMap (fun c =>
    if c = '"' then ['\\', '"']
    else if c = '\\' then ['\\', '\\']
    else [c])) ++ "\""

mutual

/-- Embeds `JSON.stringify` on parsed JSON values, as used for outbound
`wsClient.send(JSON.stringify(...))` and for `new Error(JSON.stringify(...))`. -/
def jsonSerialize : Json → String
  | Json.null => "null"
  | Json.bool true => "true"
  | Json.bool false => "false"
  | Json.num n => toString n
  | Json.str s => jsonQuote s
  | Json.arr xs => "[" ++ jsonSerializeSeq xs ++ "]"
  | Json.obj fs => "\x7b" ++ jsonSerializeFields fs ++ "\x7d"

/-- Comma-separated serialization of an array's elements. -/
def jsonSerializeSeq : List Json → String
  | [] => ""
  | [x] => jsonSerialize x
  | x :: y :: rest => jsonSerialize x ++ "," ++ jsonSerializeSeq (y :: rest)

/-- Comma-separated serialization of an object's fields. -/
def jsonSerializeFields : List (String × Json) → String
  | [] => ""
  | [(k, v)] => jsonQuote k ++ ":" ++ jsonSerialize v
  | (k, v) :: f :: rest =>
      jsonQuote k ++ ":" ++ jsonSerialize v ++ "," ++ jsonSerializeFields (f :: rest)

end

/-! CONFIG defaults of `src/server.js` lines 32-47 (values taken when the
corresponding environment variable is absent). -/

/-- Default `CONFIG.RECONNECT_INTERVAL` (ms). -/
def CONFIG_RECONNECT_INTERVAL : ℚ := 5000

/-- Default `CONFIG.REQUEST_TIMEOUT` (ms). -/
def CONFIG_REQUEST_TIMEOUT : ℚ := 35000

/-- Default `CONFIG.MAX_RECONNECT_ATTEMPTS`. -/
def CONFIG_MAX_RECONNECT_ATTEMPTS : Nat := 10

/-- Default `CONFIG.QUOTE_RETRIES`. -/
def CONFIG_QUOTE_RETRIES : Nat := 3

/-- Default `CONFIG.QUOTE_RETRY_DELAY_MS` (ms). -/
def CONFIG_QUOTE_RETRY_DELAY_MS : ℚ := 1000

/-- Default `CONFIG.QUOTE_RETRY_BACKOFF_FACTOR`. -/
def CONFIG_QUOTE_RETRY_BACKOFF_FACTOR : ℚ := 2

/-- Default `CONFIG.HEARTBEAT_INTERVAL` (ms). -/
def CONFIG_HEARTBEAT_INTERVAL : ℚ := 15000

/-- Default `CONFIG.PONG_TIMEOUT` (ms). -/
def CONFIG_PONG_TIMEOUT : ℚ := 7000

/-! WebSocket `readyState` constants of the `ws` library. -/

/-- `WebSocket.CONNECTING`. -/
def WS_CONNECTING : Nat := 0

/-- `WebSocket.OPEN`. -/
def WS_OPEN : Nat := 1

/-- `WebSocket.CLOSING`. -/
def WS_CLOSING : Nat := 2

/-- `WebSocket.CLOSED`. -/
def WS_CLOSED : Nat := 3

/-- Embeds `getConnectionState` (`src/server.js` lines 274-285): `wsClient` is
either absent (`null`) or holds a socket with a `readyState`; the code maps the
four readyStates through `stateMap` with an `'UNKNOWN'` fallback. -/
def getConnectionState (wsClient : Option Nat) : String :=
  match wsClient with
  | none => "DISCONNECTED"
  | some readyState =>
      if readyState = WS_CONNECTING then "CONNECTING"
      else if readyState = WS_OPEN then "OPEN"
      else if readyState = WS_CLOSING then "CLOSING"
      else if readyState = WS_CLOSED then "CLOSED"
      else "UNKNOWN"

/-- Embeds `isWebSocketReady` (`src/server.js` lines 287-289):
`wsClient && wsClient.readyState === WebSocket.OPEN`. -/
def isWebSocketReady (wsClient : Option Nat) : Bool :=
  wsClient = some WS_OPEN

/-! The WebSocket `message` handler (`src/server.js` lines 137-209). -/

/-- A pending-exchange record stored in `inflightRequests`
(`src/server.js` lines 343-350): the caller's promise `resolve`/`reject` pair is
identified by the natural-number `handle`. -/
structure PendingExchange where
  handle : Nat
  timestamp : Int
  method : String
  params : Json
  retries : Nat

/-- The correlation table `inflightRequests`: a `Map` whose keys are the
`uuidv4()` strings allocated at submission, in insertion order. -/
abbrev InflightTable := List (String × PendingExchange)

/-- The JavaScript `Map.has`/`Map.get` key comparison of `inflightRequests`
against a `requestId` extracted from a parsed envelope: the stored keys are
strings, so only an equal string matches. -/
def ridMatches (rid : Json) (key : String) : Bool :=
  match rid with
  | Json.str s => s = key
  | _ => false

/-- Routing decision the `message` handler extracts from an envelope. -/
inductive Routed where
  | reply (requestId : Json) (payload : Option Json) (isError : Bool) : Routed
  | notif (payload : Json) : Routed
  | unmatched : Routed

/-- Continuation of `routeTaggedErr`: the `Notif` check;
anything else leaves `requestId` undefined. -/
def routeTaggedNotif (base : Json) : Routed :=
  match base.getField "Notif" with
  | some n => if n.truthy then Routed.notif n else Routed.unmatched
  | none => Routed.unmatched

/-- Continuation of `routeTagged`: the `Error` check, then the `Notif` check. -/
def routeTaggedErr (base : Json) : Routed :=
  match base.getField "Error" with
  | some errObj =>
      if errObj.truthy ∧ (errObj.getField "id").isSome then
        Routed.reply ((errObj.getField "id").getD Json.null) (errObj.getField "err") true
      else routeTaggedNotif base
  | none => routeTaggedNotif base

/-- Embeds one arm of the envelope dispatch (`src/server.js` lines 150-180): on
a base object (either `responseEnvelope.From` or `responseEnvelope` itself) the
handler checks, in order, a truthy `Resp` with a defined `id`, a truthy `Error`
with a defined `id`, then a truthy `Notif`; otherwise `requestId` stays
undefined.  The `From` arm and the plain fallback arm of the source are
textually identical in this structure. -/
def routeTagged (base : Json) : Routed :=
  match base.getField "Resp" with
  | some resp =>
      if resp.truthy ∧ (resp.getField "id").isSome then
        Routed.reply ((resp.getField "id").getD Json.null) (resp.getField "resp") false
      else routeTaggedErr base
  | none => routeTaggedErr base

/-- Embeds the envelope dispatch of the `message` handler
(`src/server.js` lines 149-181): if `responseEnvelope.From` is truthy the
tagged checks run on it, otherwise they run on the envelope itself (the
fallback for envelopes without the `From` wrapper). -/
def routeEnvelope (env : Json) : Routed :=
  match env.getField "From" with
  | some fromVal => if fromVal.truthy then routeTagged fromVal else routeTagged env
  | none => routeTagged env

/-- The externally observable effect of processing one inbound message:
`resolve(actualResponsePayload)`, `reject(new Error(JSON.stringify(...)))`, a
forwarded notification, or the no-match warning branch. -/
inductive MsgEffect where
  | resolve (handle : Nat) (value : Option Json) : MsgEffect
  | reject (handle : Nat) (message : String) : MsgEffect
  | notify (payload : Json) : MsgEffect
  | warn : MsgEffect

/-- Embeds the resolution block of the `message` handler
(`src/server.js` lines 183-203): an extracted `requestId` held by
`inflightRequests` resolves (success) or rejects (error, with
`new Error(JSON.stringify(payload))`) the stored promise and deletes the
entry; everything else leaves the table untouched.
`JSON.stringify(undefined)` yields no message string, modelled by `""`. -/
def processMessage (env : Json) (tbl : InflightTable) : InflightTable × MsgEffect :=
  match routeEnvelope env with
  | Routed.notif p => (tbl, MsgEffect.notify p)
  | Routed.unmatched => (tbl, MsgEffect.warn)
  | Routed.reply rid payload isErr =>
      match tbl.find? (fun e => ridMatches rid e.1) with
      | some entry =>
          (tbl.eraseP (fun e => ridMatches rid e.1),
           if isErr then
             MsgEffect.reject entry.2.handle
               (match payload with
                | some p => jsonSerialize p
                | none => "")
           else MsgEffect.resolve entry.2.handle payload)
      | none => (tbl, MsgEffect.warn)

/-! The guard and envelope construction of `sendWsRequest`
(`src/server.js` lines 292-350). -/

/-- Embeds the request envelope construction of `sendWsRequest`
(`src/server.js` lines 323-334):
`payloadToSendViaWebSocket = \x7b Req: \x7b id, req: \x7b [methodVariantName]: params \x7d \x7d \x7d`. -/
def buildRequestEnvelope (methodVariantName : String) (params : Json)
    (requestId : String) : Json :=
  Json.obj [("Req", Json.obj
    [("id", Json.str requestId),
     ("req", Json.obj [(methodVariantName, params)])])]

/-- Outcome of one synchronous pass through `sendWsRequest`'s body: an
immediate rejection of the caller's promise, or a registered pending request. -/
inductive SubmitOutcome where
  | rejected (message : String) : SubmitOutcome
  | accepted (requestId : String) : SubmitOutcome

/-- Result of one synchronous pass through `sendWsRequest`'s body. -/
structure SubmitStep where
  table : InflightTable
  transmitted : Option String
  connectAttempted : Bool
  outcome : SubmitOutcome

/-- Embeds the synchronous body of `sendWsRequest`
(`src/server.js` lines 292-350): the readiness guard with its three rejection
branches (lines 302-311, the first also calling `connectToSideSwapManager`),
the method-name validation, then envelope construction, transmission and
registration in `inflightRequests` (the armed timeout is modelled separately
by the event machine below). -/
def sendWsRequestStep (wsClient : Option Nat) (methodVariantName : String)
    (params : Json) (handle : Nat) (requestId : String) (retries : Nat)
    (now : Int) (tbl : InflightTable) : SubmitStep :=
  if ¬ isWebSocketReady wsClient then
    if wsClient = none ∨ wsClient = some WS_CLOSED then
      { table := tbl, transmitted := none, connectAttempted := true,
        outcome := SubmitOutcome.rejected
          "WebSocket not connected. Connection attempt initiated. Please try again shortly." }
    else if wsClient = some WS_CONNECTING then
      { table := tbl, transmitted := none, connectAttempted := false,
        outcome := SubmitOutcome.rejected
          "WebSocket is currently connecting. Please try again shortly." }
    else
      { table := tbl, transmitted := none, connectAttempted := false,
        outcome := SubmitOutcome.rejected "WebSocket not in ready state." }
  else if methodVariantName = "" then
    { table := tbl, transmitted := none, connectAttempted := false,
      outcome := SubmitOutcome.rejected "methodVariantName must be a non-empty string" }
  else
    { table := tbl ++ [(requestId,
        { handle := handle, timestamp := now, method := methodVariantName,
          params := params, retries := retries })],
      transmitted := some (jsonSerialize (buildRequestEnvelope methodVariantName params requestId)),
      connectAttempted := false,
      outcome := SubmitOutcome.accepted requestId }

/-! Backoff arithmetic of the retry path (`src/server.js` lines 362-365) and of
the reconnect scheduling in the `close` handler (lines 230-233). -/

/-- Embeds `Math.min(retryDelay * backoffFactor, 30000)` of the timeout handler
(`src/server.js` line 363): the delay seed passed to the next retry. -/
def nextRetryDelay (retryDelay backoffFactor : ℚ) : ℚ :=
  min (retryDelay * backoffFactor) 30000

/-- The sequence of `retryDelay` values across the recursive resubmissions of
`sendWsRequest`: index 0 is the initial `options.retryDelay` (default
`CONFIG.QUOTE_RETRY_DELAY_MS`), and each retry passes
`retryDelay: nextRetryDelay` to the next attempt (`src/server.js` line 372). -/
def retryDelaySeq (base backoffFactor : ℚ) : Nat → ℚ
  | 0 => base
  | k + 1 => nextRetryDelay (retryDelaySeq base backoffFactor k) backoffFactor

/-- Embeds `finalDelay = nextRetryDelay + jitter` (`src/server.js` lines
363-365): the delay actually waited before the `k`-th retransmission, `k ≥ 1`,
where `jitter = Math.random() * 500` is the random draw of that retry. -/
def retryWaitDelay (base backoffFactor : ℚ) (k : Nat) (jitter : ℚ) : ℚ :=
  retryDelaySeq base backoffFactor k + jitter

/-- Embeds the reconnect delay of the `close` handler (`src/server.js` line
231): `Math.min(CONFIG.RECONNECT_INTERVAL * Math.pow(2, reconnectAttempts - 1),
30000)`, computed when `reconnectAttempts = attempt ≥ 1` connection attempts
have been made. -/
def reconnectDelay (reconnectInterval : ℚ) (attempt : Nat) : ℚ :=
  min (reconnectInterval * 2 ^ (attempt - 1)) 30000

/-- Modelled from the spec: the Backoff Policy formula of §4.4,
`delay(attempt) = min(max_delay, base_delay * growth_factor^(attempt-1)) +
uniform_jitter(0, jitter_bound)`, with the jitter draw passed explicitly.
Stated only to be compared with the delays the source computes. -/
def specBackoffDelay (baseDelay maxDelay growthFactor : ℚ) (attempt : Nat)
    (jitter : ℚ) : ℚ :=
  min maxDelay (baseDelay * growthFactor ^ (attempt - 1)) + jitter

/-- Final settlement of a `sendWsRequest` call chain as seen by the original
caller (the retry path chains `.then(resolve).catch(reject)` onto the original
promise, `src/server.js` lines 374-375). -/
inductive ChainOutcome where
  | timedOut (requestId : String) (message : String) : ChainOutcome

/-- Embeds the recursive timeout/retry path of `sendWsRequest`
(`src/server.js` lines 353-381) under the schedule in which every attempt's
timer fires with its entry still present (the remote never replies and the
connection stays OPEN): each attempt transmits under the next identifier drawn
from the `uuidv4()` stream `uuidSupply` (line 314); a timeout with
`retries > 0` resubmits with `retries - 1` (lines 362-376); a timeout with
`retries = 0` rejects the caller with the timeout error (line 378).  Returns
the identifiers transmitted, in order, and the settlement delivered to the
original caller through the `.then(resolve).catch(reject)` chain. -/
def runAllTimeouts (uuidSupply : Nat → String) (k : Nat)
    (methodVariantName : String) (timeout : ℚ) : Nat → List String × ChainOutcome
  | 0 =>
      ([uuidSupply k],
       ChainOutcome.timedOut (uuidSupply k)
         ("Request " ++ uuidSupply k ++ " for method " ++ methodVariantName ++
          " timed out after " ++ toString timeout ++ "ms"))
  | retries + 1 =>
      let rest := runAllTimeouts uuidSupply (k + 1) methodVariantName timeout retries
      (uuidSupply k :: rest.1, rest.2)

/-! An event-step machine for the correlation table: the interleaving of the
`close` handler (`src/server.js` lines 211-237), the `message` handler's
resolution block (lines 183-203), the request timeout handler (lines 353-381)
and the deferred retry resubmission (lines 368-376).  JavaScript runs each
handler to completion, so each event is one atomic step.  Request identifiers
are abstracted to their allocation index in the `uuidv4()` stream (only their
freshness matters here), and each caller promise is a natural-number handle. -/

/-- Ways the engine settles a caller's promise. -/
inductive Resolution where
  | remoteSuccess : Resolution
  | remoteError : Resolution
  | connectionClosed : Resolution
  | timedOut : Resolution
  | notConnected : Resolution
  deriving DecidableEq

/-- A correlation-table entry of the machine: the caller handle and the
remaining retry budget. -/
structure Entry where
  handle : Nat
  retries : Nat
  deriving DecidableEq

/-- State of the engine: connection flag, `inflightRequests` (identifier ↦
entry), the armed per-request timeout timers (by identifier; the code never
clears them on resolution or close, they fire and find the entry gone), the
armed retry timers, the settlements performed so far, and the two allocation
counters. -/
structure EngineState where
  wsOpen : Bool
  inflight : List (Nat × Entry)
  timeoutTimers : List Nat
  retryTimers : List Entry
  resolved : List (Nat × Resolution)
  nextUuid : Nat
  nextHandle : Nat
  deriving DecidableEq

/-- The events the engine reacts to. `timeoutFire` and `retryFire` are the
armed timers firing (a timer that is not armed cannot fire: such an event is a
no-op). -/
inductive Event where
  | submit (retries : Nat) : Event
  | openEvt : Event
  | close : Event
  | success (requestId : Nat) : Event
  | remoteError (requestId : Nat) : Event
  | timeoutFire (requestId : Nat) : Event
  | retryFire (handle : Nat) : Event

/-- Embeds the registration path of `sendWsRequest` for a given caller handle
(`src/server.js` lines 292-387): when the connection is not OPEN the caller is
rejected immediately (lines 302-311, `NotConnected`); otherwise a fresh
identifier is allocated, the entry is stored in `inflightRequests` and its
timeout timer armed (lines 313-386). -/
def submitStep (s : EngineState) (retries : Nat) (handle : Nat) : EngineState :=
  if s.wsOpen then
    { s with inflight := s.inflight ++ [(s.nextUuid, { handle := handle, retries := retries })],
             timeoutTimers := s.nextUuid :: s.timeoutTimers,
             nextUuid := s.nextUuid + 1 }
  else
    { s with resolved := s.resolved ++ [(handle, Resolution.notConnected)] }

/-- Embeds the resolution block of the `message` handler
(`src/server.js` lines 183-195) at the machine's level of abstraction: a reply
for a registered identifier settles the stored promise and deletes the entry;
anything else is the warning branch. -/
def replyStep (s : EngineState) (requestId : Nat) (r : Resolution) : EngineState :=
  match s.inflight.find? (fun e => e.1 = requestId) with
  | some e =>
      { s with inflight := s.inflight.eraseP (fun e => e.1 = requestId),
               resolved := s.resolved ++ [(e.2.handle, r)] }
  | none => s

/-- One atomic event-processing step, each case translated from its handler:

* `submit`: a caller invokes `sendWsRequest` with a fresh promise.
* `openEvt`: the `open` handler (line 125) makes the connection OPEN.
* `close`: the `close` handler (lines 211-237) rejects every entry of
  `inflightRequests` with the connection-closed error and clears the table; the
  per-request timeout timers are not cleared (the code has no `clearTimeout`
  there), so they stay armed and later find their entries gone.
* `success` / `remoteError`: the `message` handler settles a registered
  identifier and deletes it.
* `timeoutFire`: the timeout handler (lines 353-381) re-checks
  `inflightRequests.has(requestId)`; with the entry present it deletes it, then
  either arms a retry timer (budget left) or rejects the caller with `Timeout`.
* `retryFire`: the deferred `setTimeout` body (lines 368-376) resubmits through
  `sendWsRequest` for the same caller handle with the decremented budget. -/
def engineStep (s : EngineState) : Event → EngineState
  | Event.submit retries =>
      let s' := submitStep s retries s.nextHandle
      { s' with nextHandle := s.nextHandle + 1 }
  | Event.openEvt => { s with wsOpen := true }
  | Event.close =>
      { s with wsOpen := false,
               inflight := [],
               resolved := s.resolved ++
                 s.inflight.map (fun e => (e.2.handle, Resolution.connectionClosed)) }
  | Event.success requestId => replyStep s requestId Resolution.remoteSuccess
  | Event.remoteError requestId => replyStep s requestId Resolution.remoteError
  | Event.timeoutFire requestId =>
      match s.timeoutTimers.find? (fun t => t = requestId) with
      | some _ =>
        let s' := { s with timeoutTimers := s.timeoutTimers.eraseP (fun t => t = requestId) }
        match s'.inflight.find? (fun e => e.1 = requestId) with
        | some e =>
            let s'' := { s' with inflight := s'.inflight.eraseP (fun e => e.1 = requestId) }
            if 0 < e.2.retries then
              { s'' with retryTimers := s''.retryTimers ++
                  [{ handle := e.2.handle, retries := e.2.retries - 1 }] }
            else
              { s'' with resolved := s''.resolved ++ [(e.2.handle, Resolution.timedOut)] }
        | none => s'
      | none => s
  | Event.retryFire handle =>
      match s.retryTimers.find? (fun t => t.handle = handle) with
      | some t =>
          let s' := { s with retryTimers := s.retryTimers.eraseP (fun t => t.handle = handle) }
          submitStep s' t.retries t.handle
      | none => s

/-- The engine state at process start: DISCONNECTED, empty table, no timers. -/
def engineInit : EngineState :=
  { wsOpen := false, inflight := [], timeoutTimers := [], retryTimers := [],
    resolved := [], nextUuid := 0, nextHandle := 0 }

/-- Runs the engine over a list of events from a given state. -/
def engineRun (es : List Event) (s : EngineState) : EngineState :=
  es.foldl engineStep s

/-- Number of settlements recorded for a caller handle. -/
def resolvedCount (s : EngineState) (h : Nat) : Nat :=
  s.resolved.countP (fun r => r.1 = h)

/-- Number of live obligations of a caller handle: inflight entries plus armed
retry timers bound to it.  While an obligation exists, some armed timer will
still act for the handle. -/
def obligations (s : EngineState) (h : Nat) : Nat :=
  s.inflight.countP (fun e => e.2.handle = h) + s.retryTimers.countP (fun t => t.handle = h)

/-! A timed model of the Liveness Monitor: `sendHeartbeat`
(`src/server.js` lines 257-272), the `lastHeartbeat` update of the `message`
handler (line 143) and the timer clearing of the `close` handler
(lines 217-218). -/

/-- Heartbeat-relevant state: the connection flag, `lastHeartbeat`, the armed
pong deadline (`pongTimeoutId`, as the absolute time its callback runs), and
the time `wsClient.terminate()` was called by that callback, if ever. -/
structure HbState where
  wsOpen : Bool
  lastHeartbeat : Option ℚ
  pongDeadline : Option ℚ
  terminatedAt : Option ℚ
  deriving DecidableEq

/-- Timed events touching the heartbeat state. -/
inductive HbEvent where
  | ping (t : ℚ) : HbEvent
  | message (t : ℚ) : HbEvent
  | pongFire (t : ℚ) : HbEvent
  | closeEvt (t : ℚ) : HbEvent

/-- One timed step, each case translated from its handler:

* `ping t`: `sendHeartbeat` at time `t` (`src/server.js` lines 257-272): on an
  OPEN connection it pings, clears any pending pong timer and arms a new one
  for `t + CONFIG.PONG_TIMEOUT`.
* `message t`: the `message` handler (line 143) sets `lastHeartbeat = t` and
  touches nothing else — in particular it does not clear the pong timer, and no
  `pong` listener exists anywhere in the source.
* `pongFire t`: the armed pong callback (lines 263-267) runs at its deadline
  and calls `wsClient.terminate()`.
* `closeEvt t`: the `close` handler (lines 211-218) clears `lastHeartbeat`,
  the heartbeat interval and the pong timer. -/
def hbStep (s : HbState) : HbEvent → HbState
  | HbEvent.ping t =>
      if s.wsOpen then
        { s with pongDeadline := some (t + CONFIG_PONG_TIMEOUT) }
      else s
  | HbEvent.message t => { s with lastHeartbeat := some t }
  | HbEvent.pongFire t =>
      if s.pongDeadline = some t then
        { s with terminatedAt := some t, wsOpen := false, pongDeadline := none }
      else s
  | HbEvent.closeEvt _ =>
      { s with wsOpen := false, lastHeartbeat := none, pongDeadline := none }

/-- Runs the heartbeat model over a list of timed events. -/
def hbRun (es : List HbEvent) (s : HbState) : HbState :=
  es.foldl hbStep s

/-! Counting lemmas about `find?`/`eraseP`, the shape every removal of the
engine takes (`Map.get` + `Map.delete` in the source). -/

/-- Erasing the found element removes exactly its contribution to any count. -/
theorem countP_eraseP_add {α : Type} (p q : α → Bool) :
    ∀ (l : List α) (e : α), l.find? p = some e →
      (l.eraseP p).countP q + (if q e then 1 else 0) = l.countP q := by
  intro l
  induction l with
  | nil => intro e he; simp at he
  | cons x xs ih =>
      intro e he
      by_cases hx : p x
      · rw [List.find?_cons_of_pos _ hx] at he
        injection he with he
        subst he
        simp [List.eraseP_cons_of_pos hx, List.countP_cons]
      · rw [List.find?_cons_of_neg _ hx] at he
        have := ih e he
        simp only [List.eraseP_cons_of_neg hx, List.countP_cons]
        omega

/-- A failed search means nothing satisfies the predicate. -/
theorem countP_eq_zero_of_find?_none {α : Type} (p : α → Bool) (l : List α)
    (h : l.find? p = none) : l.countP p = 0 := by
  rw [List.countP_eq_zero]
  intro a ha
  have := List.find?_eq_none.mp h a ha
  simpa using this

/-- A successful search witnesses a positive count. -/
theorem countP_pos_of_find? {α : Type} (p : α → Bool) (l : List α) (e : α)
    (h : l.find? p = some e) : 0 < l.countP p := by
  exact List.countP_pos_iff.mpr ⟨e, List.mem_of_find?_eq_some h, List.find?_some h⟩

/-- A list all of whose key-counts vanish is empty. -/
theorem eq_nil_of_countP_keys {α β : Type} [DecidableEq α] (l : List (α × β))
    (h : ∀ rid, l.countP (fun e => e.1 = rid) = 0) : l = [] := by
  cases l with
  | nil => rfl
  | cons x xs =>
      exfalso
      have := h x.1
      simp [List.countP_cons] at this

/-- The ledger invariant of the engine.  For every allocated caller handle the
number of settlements plus the number of live obligations is exactly one (so a
caller is never settled twice, and an unsettled caller always has an armed
timer still working for it); unallocated handles have neither; every inflight
identifier has at least as many armed timeout timers as entries; identifiers
are allocated below the counter and are pairwise distinct in the table. -/
def EngineInv (s : EngineState) : Prop :=
  (∀ h, h < s.nextHandle → resolvedCount s h + obligations s h = 1) ∧
  (∀ h, s.nextHandle ≤ h → resolvedCount s h = 0 ∧ obligations s h = 0) ∧
  (∀ rid, s.inflight.countP (fun e => e.1 = rid) ≤ s.timeoutTimers.countP (fun t => t = rid)) ∧
  (∀ p ∈ s.inflight, p.1 < s.nextUuid) ∧
  (s.inflight.map Prod.fst).Nodup

/-- The initial state satisfies the ledger invariant. -/
theorem engineInit_inv : EngineInv engineInit := by
  refine ⟨?_, ?_, ?_, ?_, ?_⟩ <;>
    simp [engineInit, EngineInv, resolvedCount, obligations]

/-- Handles with a live obligation are allocated. -/
theorem handle_lt_of_obligations_pos (s : EngineState) (h : Nat)
    (h2 : ∀ h, s.nextHandle ≤ h → resolvedCount s h = 0 ∧ obligations s h = 0)
    (hpos : 0 < obligations s h) : h < s.nextHandle := by
  by_contra hge
  have := (h2 h (Nat.le_of_not_lt hge)).2
  omega

/-! Characterizations of the engine steps, one per source branch. -/

/-- A submission on an OPEN connection registers the entry and arms its timer. -/
theorem engineStep_submit_open (s : EngineState) (r : Nat) (hw : s.wsOpen = true) :
    engineStep s (Event.submit r) =
      { s with inflight := s.inflight ++ [(s.nextUuid, { handle := s.nextHandle, retries := r })],
               timeoutTimers := s.nextUuid :: s.timeoutTimers,
               nextUuid := s.nextUuid + 1,
               nextHandle := s.nextHandle + 1 } := by
  simp [engineStep, submitStep, hw]

/-- A submission on a non-OPEN connection rejects the caller immediately. -/
theorem engineStep_submit_closed (s : EngineState) (r : Nat) (hw : s.wsOpen = false) :
    engineStep s (Event.submit r) =
      { s with resolved := s.resolved ++ [(s.nextHandle, Resolution.notConnected)],
               nextHandle := s.nextHandle + 1 } := by
  simp [engineStep, submitStep, hw]

/-- The `close` handler rejects every pending entry and clears the table. -/
theorem engineStep_close (s : EngineState) :
    engineStep s Event.close =
      { s with wsOpen := false, inflight := [],
               resolved := s.resolved ++
                 s.inflight.map (fun e => (e.2.handle, Resolution.connectionClosed)) } := rfl

/-- A reply for a registered identifier settles the stored promise and deletes
the entry. -/
theorem replyStep_found (s : EngineState) (rid : Nat) (r : Resolution)
    (e : Nat × Entry) (hfind : s.inflight.find? (fun x => x.1 = rid) = some e) :
    replyStep s rid r =
      { s with inflight := s.inflight.eraseP (fun x => x.1 = rid),
               resolved := s.resolved ++ [(e.2.handle, r)] } := by
  simp [replyStep, hfind]

/-- A reply for an unknown identifier is the warning branch: no state change. -/
theorem replyStep_missing (s : EngineState) (rid : Nat) (r : Resolution)
    (hfind : s.inflight.find? (fun x => x.1 = rid) = none) :
    replyStep s rid r = s := by
  simp [replyStep, hfind]

/-- An unarmed timeout timer cannot fire. -/
theorem engineStep_timeout_unarmed (s : EngineState) (rid : Nat)
    (hT : s.timeoutTimers.find? (fun t => t = rid) = none) :
    engineStep s (Event.timeoutFire rid) = s := by
  simp [engineStep, hT]

/-- A timeout timer firing after its entry was already removed is a no-op on
the table (`inflightRequests.has(requestId)` fails). -/
theorem engineStep_timeout_stale (s : EngineState) (rid : Nat) (tt : Nat)
    (hT : s.timeoutTimers.find? (fun t => t = rid) = some tt)
    (hE : s.inflight.find? (fun e => e.1 = rid) = none) :
    engineStep s (Event.timeoutFire rid) =
      { s with timeoutTimers := s.timeoutTimers.eraseP (fun t => t = rid) } := by
  simp [engineStep, hT, hE]

/-- A timeout with retry budget left deletes the entry and arms the retry. -/
theorem engineStep_timeout_retry (s : EngineState) (rid : Nat) (tt : Nat)
    (e : Nat × Entry) (hT : s.timeoutTimers.find? (fun t => t = rid) = some tt)
    (hE : s.inflight.find? (fun x => x.1 = rid) = some e) (hr : 0 < e.2.retries) :
    engineStep s (Event.timeoutFire rid) =
      { s with timeoutTimers := s.timeoutTimers.eraseP (fun t => t = rid),
               inflight := s.inflight.eraseP (fun x => x.1 = rid),
               retryTimers := s.retryTimers ++
                 [{ handle := e.2.handle, retries := e.2.retries - 1 }] } := by
  simp [engineStep, hT, hE, hr]

/-- A timeout with exhausted budget deletes the entry and rejects the caller. -/
theorem engineStep_timeout_reject (s : EngineState) (rid : Nat) (tt : Nat)
    (e : Nat × Entry) (hT : s.timeoutTimers.find? (fun t => t = rid) = some tt)
    (hE : s.inflight.find? (fun x => x.1 = rid) = some e) (hr : ¬ 0 < e.2.retries) :
    engineStep s (Event.timeoutFire rid) =
      { s with timeoutTimers := s.timeoutTimers.eraseP (fun t => t = rid),
               inflight := s.inflight.eraseP (fun x => x.1 = rid),
               resolved := s.resolved ++ [(e.2.handle, Resolution.timedOut)] } := by
  simp [engineStep, hT, hE, hr]

/-- An unarmed retry timer cannot fire. -/
theorem engineStep_retry_unarmed (s : EngineState) (h0 : Nat)
    (hR : s.retryTimers.find? (fun t => t.handle = h0) = none) :
    engineStep s (Event.retryFire h0) = s := by
  simp [engineStep, hR]

/-- A retry firing while OPEN resubmits the entry under a fresh identifier for
the same caller. -/
theorem engineStep_retry_open (s : EngineState) (h0 : Nat) (t : Entry)
    (hR : s.retryTimers.find? (fun x => x.handle = h0) = some t)
    (hw : s.wsOpen = true) :
    engineStep s (Event.retryFire h0) =
      { s with retryTimers := s.retryTimers.eraseP (fun x => x.handle = h0),
               inflight := s.inflight ++ [(s.nextUuid, { handle := t.handle, retries := t.retries })],
               timeoutTimers := s.nextUuid :: s.timeoutTimers,
               nextUuid := s.nextUuid + 1 } := by
  simp [engineStep, hR, submitStep, hw]

/-- A retry firing while not OPEN rejects the caller immediately. -/
theorem engineStep_retry_closed (s : EngineState) (h0 : Nat) (t : Entry)
    (hR : s.retryTimers.find? (fun x => x.handle = h0) = some t)
    (hw : s.wsOpen = false) :
    engineStep s (Event.retryFire h0) =
      { s with retryTimers := s.retryTimers.eraseP (fun x => x.handle = h0),
               resolved := s.resolved ++ [(t.handle, Resolution.notConnected)] } := by
  simp [engineStep, hR, submitStep, hw]


/-- Settling a registered identifier from the `message` handler preserves the
ledger invariant: the removed entry's contribution to the obligations moves,
one for one, to the settlements. -/
theorem replyStep_inv (s : EngineState) (rid : Nat) (r : Resolution)
    (hs : EngineInv s) : EngineInv (replyStep s rid r) := by
  obtain ⟨h1, h2, h3, h4, h5⟩ := hs
  cases hfind : s.inflight.find? (fun e => e.1 = rid) with
  | none =>
      rw [replyStep_missing s rid r hfind]
      exact ⟨h1, h2, h3, h4, h5⟩
  | some e =>
      have hmem : e ∈ s.inflight := List.mem_of_find?_eq_some hfind
      have hekey : e.1 = rid := by simpa using List.find?_some hfind
      have hhandle : e.2.handle < s.nextHandle := by
        refine handle_lt_of_obligations_pos s e.2.handle h2 ?_
        have hpos : 0 < s.inflight.countP (fun x => x.2.handle = e.2.handle) :=
          List.countP_pos_iff.mpr ⟨e, hmem, by simp⟩
        simp only [obligations]
        omega
      rw [replyStep_found s rid r e hfind]
      refine ⟨?_, ?_, ?_, ?_, ?_⟩
      · intro h hh
        simp only [resolvedCount, obligations] at h1 h2 ⊢
        simp only [List.countP_append, List.countP_cons, List.countP_nil,
          decide_eq_true_eq] at hh ⊢
        have herase := countP_eraseP_add (fun x => x.1 = rid)
          (fun x => x.2.handle = h) s.inflight e hfind
        simp only [decide_eq_true_eq] at herase
        by_cases hEq : e.2.handle = h
        · have hz := h1 h hh
          simp only [if_pos hEq] at herase ⊢
          omega
        · have hz := h1 h hh
          simp only [if_neg hEq] at herase ⊢
          omega
      · intro h hh
        simp only [resolvedCount, obligations] at h2 ⊢
        simp only [List.countP_append, List.countP_cons, List.countP_nil,
          decide_eq_true_eq] at hh ⊢
        have hz := h2 h hh
        have hEq : e.2.handle ≠ h := by omega
        have herase := countP_eraseP_add (fun x => x.1 = rid)
          (fun x => x.2.handle = h) s.inflight e hfind
        simp only [decide_eq_true_eq, if_neg hEq] at herase
        simp only [if_neg hEq]
        omega
      · intro rid'
        dsimp only
        have herase := countP_eraseP_add (fun x => x.1 = rid)
          (fun x => x.1 = rid') s.inflight e hfind
        have h3' := h3 rid'
        omega
      · intro p hp
        exact h4 p (List.mem_of_mem_eraseP hp)
      · exact h5.sublist (List.Sublist.map _ (List.eraseP_sublist _))

/-- Every step of the engine preserves the ledger invariant. -/
theorem engineStep_inv (s : EngineState) (ev : Event) (hs : EngineInv s) :
    EngineInv (engineStep s ev) := by
  obtain ⟨h1, h2, h3, h4, h5⟩ := hs
  cases ev with
  | success rid => exact replyStep_inv s rid Resolution.remoteSuccess ⟨h1, h2, h3, h4, h5⟩
  | remoteError rid => exact replyStep_inv s rid Resolution.remoteError ⟨h1, h2, h3, h4, h5⟩
  | openEvt => exact ⟨h1, h2, h3, h4, h5⟩
  | close =>
      rw [engineStep_close s]
      refine ⟨?_, ?_, ?_, ?_, ?_⟩
      · intro h hh
        have hz := h1 h hh
        simp only [resolvedCount, obligations] at hz ⊢
        simp only [List.countP_append, List.countP_map, List.countP_nil]
        simp only [Function.comp_def]
        omega
      · intro h hh
        have hz := h2 h hh
        simp only [resolvedCount, obligations] at hz ⊢
        simp only [List.countP_append, List.countP_map, List.countP_nil]
        simp only [Function.comp_def]
        omega
      · intro rid
        simp
      · intro p hp
        simp at hp
      · simp
  | submit r =>
      cases hw : s.wsOpen with
      | true =>
          rw [engineStep_submit_open s r hw]
          refine ⟨?_, ?_, ?_, ?_, ?_⟩
          · intro h hh
            simp only [resolvedCount, obligations] at h1 h2 ⊢
            simp only [List.countP_append, List.countP_cons, List.countP_nil,
              decide_eq_true_eq] at hh ⊢
            by_cases hH : s.nextHandle = h
            · have hz := h2 h (Nat.le_of_eq hH)
              simp only [if_pos hH]
              omega
            · have hz := h1 h (by omega)
              simp only [if_neg hH]
              omega
          · intro h hh
            simp only [resolvedCount, obligations] at h2 ⊢
            simp only [List.countP_append, List.countP_cons, List.countP_nil,
              decide_eq_true_eq] at hh ⊢
            have hz := h2 h (by omega)
            have hH : s.nextHandle ≠ h := by omega
            simp only [if_neg hH]
            omega
          · intro rid
            simp only [List.countP_append, List.countP_cons, List.countP_nil,
              decide_eq_true_eq]
            have := h3 rid
            omega
          · intro p hp
            simp only [List.mem_append, List.mem_singleton] at hp
            rcases hp with hp | hp
            · exact Nat.lt_succ_of_lt (h4 p hp)
            · subst hp
              exact Nat.lt_succ_self _
          · simp only [List.map_append, List.map_cons, List.map_nil]
            refine h5.append (List.nodup_singleton _) ?_
            intro a ha hb
            simp only [List.mem_singleton] at hb
            subst hb
            obtain ⟨p, hp, hpa⟩ := List.mem_map.mp ha
            have := h4 p hp
            omega
      | false =>
          rw [engineStep_submit_closed s r hw]
          refine ⟨?_, ?_, ?_, ?_, ?_⟩
          · intro h hh
            simp only [resolvedCount, obligations] at h1 h2 ⊢
            simp only [List.countP_append, List.countP_cons, List.countP_nil,
              decide_eq_true_eq] at hh ⊢
            by_cases hH : s.nextHandle = h
            · have hz := h2 h (Nat.le_of_eq hH)
              simp only [if_pos hH]
              omega
            · have hz := h1 h (by omega)
              simp only [if_neg hH]
              omega
          · intro h hh
            simp only [resolvedCount, obligations] at h2 ⊢
            simp only [List.countP_append, List.countP_cons, List.countP_nil,
              decide_eq_true_eq] at hh ⊢
            have hz := h2 h (by omega)
            have hH : s.nextHandle ≠ h := by omega
            simp only [if_neg hH]
            omega
          · exact h3
          · exact h4
          · exact h5
  | timeoutFire rid =>
      cases hT : s.timeoutTimers.find? (fun t => t = rid) with
      | none =>
          rw [engineStep_timeout_unarmed s rid hT]
          exact ⟨h1, h2, h3, h4, h5⟩
      | some tt =>
          cases hE : s.inflight.find? (fun e => e.1 = rid) with
          | none =>
              rw [engineStep_timeout_stale s rid tt hT hE]
              refine ⟨h1, h2, ?_, h4, h5⟩
              intro rid'
              dsimp only
              have herase := countP_eraseP_add (fun t => t = rid)
                (fun t => t = rid') s.timeoutTimers tt hT
              have h3' := h3 rid'
              by_cases hrr : rid = rid'
              · subst hrr
                have hz := countP_eq_zero_of_find?_none (fun e => e.1 = rid) s.inflight hE
                simp only [decide_eq_true_eq] at hz herase ⊢
                omega
              · have htt : tt ≠ rid' := by
                  have : tt = rid := by simpa using List.find?_some hT
                  omega
                simp only [decide_eq_true_eq, if_neg htt] at herase
                omega
          | some e =>
              have hekey : e.1 = rid := by simpa using List.find?_some hE
              have hmem : e ∈ s.inflight := List.mem_of_find?_eq_some hE
              have hhandle : e.2.handle < s.nextHandle := by
                refine handle_lt_of_obligations_pos s e.2.handle h2 ?_
                have hpos : 0 < s.inflight.countP (fun x => x.2.handle = e.2.handle) :=
                  List.countP_pos_iff.mpr ⟨e, hmem, by simp⟩
                simp only [obligations]
                omega
              have herase3 : ∀ rid', (s.inflight.eraseP (fun x => x.1 = rid)).countP
                    (fun x => x.1 = rid') ≤
                  (s.timeoutTimers.eraseP (fun t => t = rid)).countP (fun t => t = rid') := by
                intro rid'
                have hi := countP_eraseP_add (fun x => x.1 = rid)
                  (fun x => x.1 = rid') s.inflight e hE
                have ht := countP_eraseP_add (fun t => t = rid)
                  (fun t => t = rid') s.timeoutTimers tt hT
                have h3' := h3 rid'
                have htt : tt = rid := by simpa using List.find?_some hT
                simp only [decide_eq_true_eq] at hi ht
                rw [hekey] at hi
                rw [htt] at ht
                omega
              have herase4 : ∀ p ∈ s.inflight.eraseP (fun x => x.1 = rid), p.1 < s.nextUuid :=
                fun p hp => h4 p (List.mem_of_mem_eraseP hp)
              have herase5 : ((s.inflight.eraseP (fun x => x.1 = rid)).map Prod.fst).Nodup :=
                h5.sublist (List.Sublist.map _ (List.eraseP_sublist _))
              by_cases hr : 0 < e.2.retries
              · rw [engineStep_timeout_retry s rid tt e hT hE hr]
                refine ⟨?_, ?_, herase3, herase4, herase5⟩
                · intro h hh
                  simp only [resolvedCount, obligations] at h1 ⊢
                  simp only [List.countP_append, List.countP_cons, List.countP_nil,
                    decide_eq_true_eq] at hh ⊢
                  have herase := countP_eraseP_add (fun x => x.1 = rid)
                    (fun x => x.2.handle = h) s.inflight e hE
                  simp only [decide_eq_true_eq] at herase
                  have hz := h1 h hh
                  by_cases hEq : e.2.handle = h
                  · simp only [if_pos hEq] at herase ⊢
                    omega
                  · simp only [if_neg hEq] at herase ⊢
                    omega
                · intro h hh
                  simp only [resolvedCount, obligations] at h2 ⊢
                  simp only [List.countP_append, List.countP_cons, List.countP_nil,
                    decide_eq_true_eq] at hh ⊢
                  have hz := h2 h hh
                  have hEq : e.2.handle ≠ h := by omega
                  have herase := countP_eraseP_add (fun x => x.1 = rid)
                    (fun x => x.2.handle = h) s.inflight e hE
                  simp only [decide_eq_true_eq, if_neg hEq] at herase
                  simp only [if_neg hEq]
                  omega
              · rw [engineStep_timeout_reject s rid tt e hT hE hr]
                refine ⟨?_, ?_, herase3, herase4, herase5⟩
                · intro h hh
                  simp only [resolvedCount, obligations] at h1 ⊢
                  simp only [List.countP_append, List.countP_cons, List.countP_nil,
                    decide_eq_true_eq] at hh ⊢
                  have herase := countP_eraseP_add (fun x => x.1 = rid)
                    (fun x => x.2.handle = h) s.inflight e hE
                  simp only [decide_eq_true_eq] at herase
                  have hz := h1 h hh
                  by_cases hEq : e.2.handle = h
                  · simp only [if_pos hEq] at herase ⊢
                    omega
                  · simp only [if_neg hEq] at herase ⊢
                    omega
                · intro h hh
                  simp only [resolvedCount, obligations] at h2 ⊢
                  simp only [List.countP_append, List.countP_cons, List.countP_nil,
                    decide_eq_true_eq] at hh ⊢
                  have hz := h2 h hh
                  have hEq : e.2.handle ≠ h := by omega
                  have herase := countP_eraseP_add (fun x => x.1 = rid)
                    (fun x => x.2.handle = h) s.inflight e hE
                  simp only [decide_eq_true_eq, if_neg hEq] at herase
                  simp only [if_neg hEq]
                  omega
  | retryFire h0 =>
      cases hR : s.retryTimers.find? (fun t => t.handle = h0) with
      | none =>
          rw [engineStep_retry_unarmed s h0 hR]
          exact ⟨h1, h2, h3, h4, h5⟩
      | some t =>
          have hmem : t ∈ s.retryTimers := List.mem_of_find?_eq_some hR
          have hhandle : t.handle < s.nextHandle := by
            refine handle_lt_of_obligations_pos s t.handle h2 ?_
            have hpos : 0 < s.retryTimers.countP (fun x => x.handle = t.handle) :=
              List.countP_pos_iff.mpr ⟨t, hmem, by simp⟩
            simp only [obligations]
            omega
          cases hw : s.wsOpen with
          | true =>
              rw [engineStep_retry_open s h0 t hR hw]
              refine ⟨?_, ?_, ?_, ?_, ?_⟩
              · intro h hh
                simp only [resolvedCount, obligations] at h1 ⊢
                simp only [List.countP_append, List.countP_cons, List.countP_nil,
                  decide_eq_true_eq] at hh ⊢
                have herase := countP_eraseP_add (fun x => x.handle = h0)
                  (fun x => x.handle = h) s.retryTimers t hR
                simp only [decide_eq_true_eq] at herase
                have hz := h1 h hh
                by_cases hEq : t.handle = h
                · simp only [if_pos hEq] at herase ⊢
                  omega
                · simp only [if_neg hEq] at herase ⊢
                  omega
              · intro h hh
                simp only [resolvedCount, obligations] at h2 ⊢
                simp only [List.countP_append, List.countP_cons, List.countP_nil,
                  decide_eq_true_eq] at hh ⊢
                have hz := h2 h hh
                have hEq : t.handle ≠ h := by omega
                have herase := countP_eraseP_add (fun x => x.handle = h0)
                  (fun x => x.handle = h) s.retryTimers t hR
                simp only [decide_eq_true_eq, if_neg hEq] at herase
                simp only [if_neg hEq]
                omega
              · intro rid
                simp only [List.countP_append, List.countP_cons, List.countP_nil,
                  decide_eq_true_eq]
                have := h3 rid
                omega
              · intro p hp
                simp only [List.mem_append, List.mem_singleton] at hp
                rcases hp with hp | hp
                · exact Nat.lt_succ_of_lt (h4 p hp)
                · subst hp
                  exact Nat.lt_succ_self _
              · simp only [List.map_append, List.map_cons, List.map_nil]
                refine h5.append (List.nodup_singleton _) ?_
                intro a ha hb
                simp only [List.mem_singleton] at hb
                subst hb
                obtain ⟨p, hp, hpa⟩ := List.mem_map.mp ha
                have := h4 p hp
                omega
          | false =>
              rw [engineStep_retry_closed s h0 t hR hw]
              refine ⟨?_, ?_, h3, h4, h5⟩
              · intro h hh
                simp only [resolvedCount, obligations] at h1 ⊢
                simp only [List.countP_append, List.countP_cons, List.countP_nil,
                  decide_eq_true_eq] at hh ⊢
                have herase := countP_eraseP_add (fun x => x.handle = h0)
                  (fun x => x.handle = h) s.retryTimers t hR
                simp only [decide_eq_true_eq] at herase
                have hz := h1 h hh
                by_cases hEq : t.handle = h
                · simp only [if_pos hEq] at herase ⊢
                  omega
                · simp only [if_neg hEq] at herase ⊢
                  omega
              · intro h hh
                simp only [resolvedCount, obligations] at h2 ⊢
                simp only [List.countP_append, List.countP_cons, List.countP_nil,
                  decide_eq_true_eq] at hh ⊢
                have hz := h2 h hh
                have hEq : t.handle ≠ h := by omega
                have herase := countP_eraseP_add (fun x => x.handle = h0)
                  (fun x => x.handle = h) s.retryTimers t hR
                simp only [decide_eq_true_eq, if_neg hEq] at herase
                simp only [if_neg hEq]
                omega

/-- The ledger invariant holds along every run of the engine. -/
theorem engineRun_inv (es : List Event) (s : EngineState) (hs : EngineInv s) :
    EngineInv (engineRun es s) := by
  induction es generalizing s with
  | nil => exact hs
  | cons e es ih => exact ih (engineStep s e) (engineStep_inv s e hs)

/-- Claim C1: under any interleaving of submissions, connection open/close,
remote success/error replies, request timeouts and retry resubmissions, every
caller promise is settled at most once (no double resolve); the correlation
table never holds two entries for one identifier; every allocated caller whose
promise is still unsettled has a live obligation in the table or an armed
retry timer (each table removal is paired, one for one, with a settlement — no
entry leaks a waiting caller); and once every armed timer has fired, every
allocated caller has been settled exactly once. -/
theorem C1_exactly_once_and_no_leak (es : List Event) :
    (∀ h, resolvedCount (engineRun es engineInit) h ≤ 1) ∧
    ((engineRun es engineInit).inflight.map Prod.fst).Nodup ∧
    (∀ h, h < (engineRun es engineInit).nextHandle →
      resolvedCount (engineRun es engineInit) h + obligations (engineRun es engineInit) h = 1) ∧
    ((engineRun es engineInit).timeoutTimers = [] → (engineRun es engineInit).retryTimers = [] →
      ∀ h, h < (engineRun es engineInit).nextHandle →
        resolvedCount (engineRun es engineInit) h = 1) := by
  obtain ⟨h1, h2, h3, h4, h5⟩ := engineRun_inv es engineInit engineInit_inv
  refine ⟨?_, h5, h1, ?_⟩
  · intro h
    by_cases hh : h < (engineRun es engineInit).nextHandle
    · have := h1 h hh
      omega
    · have := (h2 h (Nat.le_of_not_lt hh)).1
      omega
  · intro hT hR h hh
    have hinf : (engineRun es engineInit).inflight = [] := by
      refine eq_nil_of_countP_keys _ ?_
      intro rid
      have h3r := h3 rid
      rw [hT] at h3r
      simp only [List.countP_nil, Nat.le_zero] at h3r
      exact h3r
    have hsum := h1 h hh
    simp only [obligations, hinf, hR, List.countP_nil] at hsum
    omega

/-- Witness for C1 at a concrete interleaving: open, submit with one retry,
first timeout, retry resubmission, second timeout, close — the caller is
settled exactly once. -/
theorem C1_exactly_once_and_no_leak_witness :
    resolvedCount (engineRun [Event.openEvt, Event.submit 1, Event.timeoutFire 0,
      Event.retryFire 0, Event.timeoutFire 1, Event.close] engineInit) 0 = 1 := by
  exact (C1_exactly_once_and_no_leak [Event.openEvt, Event.submit 1, Event.timeoutFire 0,
    Event.retryFire 0, Event.timeoutFire 1, Event.close]).2.2.2 (by decide) (by decide)
    0 (by decide)

/-- Claim C2: the `close` handler, in one event-processing step, empties the
correlation table, adds exactly one settlement per pending entry, and rejects
every previously pending caller with the connection-closed error. -/
theorem C2_close_cascade (s : EngineState) :
    (engineStep s Event.close).inflight = [] ∧
    (engineStep s Event.close).resolved.length = s.resolved.length + s.inflight.length ∧
    ∀ p ∈ s.inflight,
      (p.2.handle, Resolution.connectionClosed) ∈ (engineStep s Event.close).resolved := by
  rw [engineStep_close s]
  refine ⟨rfl, by simp, ?_⟩
  intro p hp
  simp only [List.mem_append, List.mem_map]
  exact Or.inr ⟨p, hp, rfl⟩

/-- Witness for C2 at a concrete state holding two pending exchanges. -/
theorem C2_close_cascade_witness :
    (engineStep
      { wsOpen := true, inflight := [(0, ⟨0, 1⟩), (1, ⟨1, 0⟩)],
        timeoutTimers := [1, 0], retryTimers := [], resolved := [],
        nextUuid := 2, nextHandle := 2 } Event.close).inflight = [] ∧
    (0, Resolution.connectionClosed) ∈
      (engineStep
        { wsOpen := true, inflight := [(0, ⟨0, 1⟩), (1, ⟨1, 0⟩)],
          timeoutTimers := [1, 0], retryTimers := [], resolved := [],
          nextUuid := 2, nextHandle := 2 } Event.close).resolved :=
  ⟨(C2_close_cascade _).1,
   (C2_close_cascade _).2.2 (0, ⟨0, 1⟩) (by decide)⟩

/-- Claim C3: `sendWsRequest` invoked while the socket is not OPEN rejects the
caller immediately with one of the three not-connected errors, stores no
pending exchange, transmits nothing, and triggers a connection attempt only in
the no-socket / CLOSED branch. -/
theorem C3_not_open_rejected (ws : Option Nat) (m : String) (p : Json)
    (h : Nat) (rid : String) (r : Nat) (now : Int) (tbl : InflightTable)
    (hws : ws ≠ some WS_OPEN) :
    (sendWsRequestStep ws m p h rid r now tbl).table = tbl ∧
    (sendWsRequestStep ws m p h rid r now tbl).transmitted = none ∧
    (∃ msg, (sendWsRequestStep ws m p h rid r now tbl).outcome = SubmitOutcome.rejected msg ∧
      msg ∈ ["WebSocket not connected. Connection attempt initiated. Please try again shortly.",
             "WebSocket is currently connecting. Please try again shortly.",
             "WebSocket not in ready state."]) ∧
    ((sendWsRequestStep ws m p h rid r now tbl).connectAttempted = true →
      ws = none ∨ ws = some WS_CLOSED) := by
  have hready : isWebSocketReady ws = false := by
    simp only [isWebSocketReady, decide_eq_false_iff_not]
    exact hws
  by_cases hc : ws = none ∨ ws = some WS_CLOSED
  · have hstep : sendWsRequestStep ws m p h rid r now tbl =
        { table := tbl, transmitted := none, connectAttempted := true,
          outcome := SubmitOutcome.rejected
            "WebSocket not connected. Connection attempt initiated. Please try again shortly." } := by
      simp [sendWsRequestStep, hready, hc]
    rw [hstep]
    exact ⟨rfl, rfl, ⟨_, rfl, by simp⟩, fun _ => hc⟩
  · by_cases h0 : ws = some WS_CONNECTING
    · have hstep : sendWsRequestStep ws m p h rid r now tbl =
          { table := tbl, transmitted := none, connectAttempted := false,
            outcome := SubmitOutcome.rejected
              "WebSocket is currently connecting. Please try again shortly." } := by
        simp [sendWsRequestStep, hready, hc, h0, isWebSocketReady,
          WS_CONNECTING, WS_CLOSED, WS_OPEN]
      rw [hstep]
      exact ⟨rfl, rfl, ⟨_, rfl, by simp⟩, fun hf => nomatch hf⟩
    · have hstep : sendWsRequestStep ws m p h rid r now tbl =
          { table := tbl, transmitted := none, connectAttempted := false,
            outcome := SubmitOutcome.rejected "WebSocket not in ready state." } := by
        simp [sendWsRequestStep, hready, hc, h0]
      rw [hstep]
      exact ⟨rfl, rfl, ⟨_, rfl, by simp⟩, fun hf => nomatch hf⟩

/-- Witness for C3 with no socket object (DISCONNECTED). -/
theorem C3_not_open_rejected_witness :
    (sendWsRequestStep none "GetQuote" Json.null 0 "u0" 0 0 []).table = [] ∧
    (sendWsRequestStep none "GetQuote" Json.null 0 "u0" 0 0 []).transmitted = none :=
  ⟨(C3_not_open_rejected none "GetQuote" Json.null 0 "u0" 0 0 [] (by decide)).1,
   (C3_not_open_rejected none "GetQuote" Json.null 0 "u0" 0 0 [] (by decide)).2.1⟩

/-- Claim C9 (amended): with no socket, or a socket in one of the four
WebSocket readyStates, `getConnectionState` returns one of the five values
DISCONNECTED, CONNECTING, OPEN, CLOSING or CLOSED — the `'CLOSED'` entry of
`stateMap` makes a fifth value reachable, beyond the four the spec lists. -/
theorem C9_connection_state (ws : Option Nat) (hws : ∀ n, ws = some n → n < 4) :
    getConnectionState ws ∈ ["DISCONNECTED", "CONNECTING", "OPEN", "CLOSING", "CLOSED"] := by
  cases ws with
  | none => simp [getConnectionState]
  | some n =>
      have hn := hws n rfl
      interval_cases n <;> decide

/-- Witness for C9 at readyState `WebSocket.CLOSED`. -/
theorem C9_connection_state_witness :
    getConnectionState (some 3) ∈ ["DISCONNECTED", "CONNECTING", "OPEN", "CLOSING", "CLOSED"] :=
  C9_connection_state (some 3) (fun n hn => by cases hn; decide)

/-- Counterexample to C9 as stated: a socket whose `readyState` is
`WebSocket.CLOSED` (reachable, e.g. after `terminate()` and before the `close`
callback nulls `wsClient`) makes `getConnectionState` return `'CLOSED'`, which
is not among the four values the claim allows. -/
theorem C9_counterexample :
    getConnectionState (some WS_CLOSED) = "CLOSED" ∧
    "CLOSED" ∉ ["DISCONNECTED", "CONNECTING", "OPEN", "CLOSING"] := by
  decide

/-! Backoff arithmetic lemmas for claim C5. -/

/-- Closed form of the retry delay seed: after `k + 1` halvings of the budget
the seed is the capped exponential `min 30000 (base * f ^ (k + 1))`. -/
theorem retryDelaySeq_closed (base f : ℚ) (_hb : 0 ≤ base) (hf : 1 ≤ f) :
    ∀ k : Nat, retryDelaySeq base f (k + 1) = min 30000 (base * f * f ^ k) := by
  intro k
  induction k with
  | zero =>
      simp [retryDelaySeq, nextRetryDelay, min_comm]
  | succ k ih =>
      have hstep : retryDelaySeq base f (k + 1 + 1) =
          min (retryDelaySeq base f (k + 1) * f) 30000 := rfl
      rw [hstep, ih]
      have hf0 : (0 : ℚ) ≤ f := by linarith
      have hpk : (0 : ℚ) ≤ f ^ k := pow_nonneg hf0 k
      have hflat : base * f * f ^ k * f = base * f * f ^ (k + 1) := by ring
      rcases le_or_lt (base * f * f ^ k) 30000 with hle | hgt
      · rw [min_eq_right hle, hflat, min_comm]
      · rw [min_eq_left (le_of_lt hgt)]
        have h30 : (30000 : ℚ) ≤ 30000 * f := by nlinarith
        rw [min_eq_right h30]
        have hbig : (30000 : ℚ) ≤ base * f * f ^ (k + 1) := by
          have hmono : base * f * f ^ k ≤ base * f * f ^ k * f := by
            nlinarith
          rw [← hflat]
          linarith
        rw [min_eq_left hbig]

/-- The retry delay seed is never negative. -/
theorem retryDelaySeq_nonneg (base f : ℚ) (hb : 0 ≤ base) (hf : 0 ≤ f) :
    ∀ k : Nat, 0 ≤ retryDelaySeq base f k := by
  intro k
  induction k with
  | zero => exact hb
  | succ k ih =>
      have : (0 : ℚ) ≤ retryDelaySeq base f k * f := mul_nonneg ih hf
      simp only [retryDelaySeq, nextRetryDelay]
      have h30 : (0 : ℚ) ≤ 30000 := by norm_num
      exact le_min this h30

/-- Claim C5: the delay actually waited before the `k`-th retransmission of a
request (`k ≥ 1`) equals the spec's Backoff Policy formula at `attempt = k`,
with per-site parameters `base_delay = retryDelay * backoffFactor`,
`max_delay = 30000` and the jitter draw of that retry; the reconnect delay
scheduled after `n ≥ 1` connection attempts equals the formula at
`attempt = n` with `base_delay = RECONNECT_INTERVAL`, `growth_factor = 2` and
jitter bound `0`.  Both delays are non-negative, the deterministic part is
monotonically non-decreasing in the attempt count, and the totals never exceed
`max_delay + jitter_bound` (`30000 + 500` for retries, `30000 + 0` for
reconnects). -/
theorem C5_backoff_formula (base f ri jit : ℚ) (k n : Nat)
    (hb : 0 ≤ base) (hf : 1 ≤ f) (hri : 0 ≤ ri) (hj0 : 0 ≤ jit) (hj1 : jit ≤ 500)
    (hk : 1 ≤ k) (hn : 1 ≤ n) :
    retryWaitDelay base f k jit = specBackoffDelay (base * f) 30000 f k jit ∧
    reconnectDelay ri n = specBackoffDelay ri 30000 2 n 0 ∧
    0 ≤ retryWaitDelay base f k jit ∧
    0 ≤ reconnectDelay ri n ∧
    retryDelaySeq base f k ≤ retryDelaySeq base f (k + 1) ∧
    reconnectDelay ri n ≤ reconnectDelay ri (n + 1) ∧
    retryWaitDelay base f k jit ≤ 30000 + 500 ∧
    reconnectDelay ri n ≤ 30000 + 0 := by
  obtain ⟨j, rfl⟩ : ∃ j, k = j + 1 := ⟨k - 1, by omega⟩
  have hf0 : (0 : ℚ) ≤ f := by linarith
  have hclosed := retryDelaySeq_closed base f hb hf j
  have hclosed' := retryDelaySeq_closed base f hb hf (j + 1)
  refine ⟨?_, ?_, ?_, ?_, ?_, ?_, ?_, ?_⟩
  · simp only [retryWaitDelay, specBackoffDelay, hclosed, Nat.add_sub_cancel]
  · simp only [reconnectDelay, specBackoffDelay, min_comm, add_zero]
  · have := retryDelaySeq_nonneg base f hb hf0 (j + 1)
    simp only [retryWaitDelay]
    linarith
  · have h1 : (0 : ℚ) ≤ ri * 2 ^ (n - 1) := mul_nonneg hri (by positivity)
    have h2 : (0 : ℚ) ≤ 30000 := by norm_num
    exact le_min h1 h2
  · rw [hclosed, hclosed']
    refine min_le_min (le_refl _) ?_
    have : f ^ j ≤ f ^ (j + 1) := pow_le_pow_right₀ hf (Nat.le_succ j)
    nlinarith [mul_nonneg hb hf0]
  · simp only [reconnectDelay]
    refine min_le_min ?_ (le_refl _)
    have hpow : (2 : ℚ) ^ (n - 1) ≤ 2 ^ (n + 1 - 1) :=
      pow_le_pow_right₀ (by norm_num) (by omega)
    nlinarith
  · have hcap : retryDelaySeq base f (j + 1) ≤ 30000 := by
      rw [hclosed]
      exact min_le_left _ _
    simp only [retryWaitDelay]
    linarith
  · simp only [reconnectDelay, add_zero]
    exact min_le_right _ _

/-- Witness for C5 at the CONFIG defaults (`retryDelay = 1000`, factor `2`,
reconnect interval `5000`), jitter draw `250`, second retry, third reconnect
attempt. -/
theorem C5_backoff_formula_witness :
    retryWaitDelay CONFIG_QUOTE_RETRY_DELAY_MS CONFIG_QUOTE_RETRY_BACKOFF_FACTOR 2 250 =
      specBackoffDelay (CONFIG_QUOTE_RETRY_DELAY_MS * CONFIG_QUOTE_RETRY_BACKOFF_FACTOR)
        30000 CONFIG_QUOTE_RETRY_BACKOFF_FACTOR 2 250 ∧
    reconnectDelay CONFIG_RECONNECT_INTERVAL 3 =
      specBackoffDelay CONFIG_RECONNECT_INTERVAL 30000 2 3 0 :=
  ⟨(C5_backoff_formula CONFIG_QUOTE_RETRY_DELAY_MS CONFIG_QUOTE_RETRY_BACKOFF_FACTOR
      CONFIG_RECONNECT_INTERVAL 250 2 3
      (by norm_num [CONFIG_QUOTE_RETRY_DELAY_MS])
      (by norm_num [CONFIG_QUOTE_RETRY_BACKOFF_FACTOR])
      (by norm_num [CONFIG_RECONNECT_INTERVAL])
      (by norm_num) (by norm_num) (by norm_num) (by norm_num)).1,
   (C5_backoff_formula CONFIG_QUOTE_RETRY_DELAY_MS CONFIG_QUOTE_RETRY_BACKOFF_FACTOR
      CONFIG_RECONNECT_INTERVAL 250 2 3
      (by norm_num [CONFIG_QUOTE_RETRY_DELAY_MS])
      (by norm_num [CONFIG_QUOTE_RETRY_BACKOFF_FACTOR])
      (by norm_num [CONFIG_RECONNECT_INTERVAL])
      (by norm_num) (by norm_num) (by norm_num) (by norm_num)).2.1⟩

/-- Claim C4 (amended): a submission with retry budget 2 whose attempts all
time out performs exactly 3 transmissions — the initial attempt and 2 retries
— each under a fresh identifier drawn from the `uuidv4()` stream (pairwise
distinct whenever the stream is injective), and the original caller is finally
rejected with the timeout error of the last attempt. -/
theorem C4_three_transmissions (S : Nat → String) (m : String) (t : ℚ)
    (hinj : Function.Injective S) :
    (runAllTimeouts S 0 m t 2).1 = [S 0, S 1, S 2] ∧
    (runAllTimeouts S 0 m t 2).1.length = 3 ∧
    (runAllTimeouts S 0 m t 2).1.Nodup ∧
    (runAllTimeouts S 0 m t 2).2 = ChainOutcome.timedOut (S 2)
      ("Request " ++ S 2 ++ " for method " ++ m ++ " timed out after " ++
        toString t ++ "ms") := by
  refine ⟨rfl, rfl, ?_, rfl⟩
  have hids : (runAllTimeouts S 0 m t 2).1 = [S 0, S 1, S 2] := rfl
  rw [hids]
  have h01 : S 0 ≠ S 1 := fun h => by have := hinj h; omega
  have h02 : S 0 ≠ S 2 := fun h => by have := hinj h; omega
  have h12 : S 1 ≠ S 2 := fun h => by have := hinj h; omega
  simp [h01, h02, h12]

/-- Witness for C4 at an injective stream of pairwise distinct identifiers. -/
theorem C4_three_transmissions_witness :
    (runAllTimeouts (fun i => String.mk (List.replicate i 'u')) 0 "GetQuote" 35000 2).1 =
      [String.mk (List.replicate 0 'u'), String.mk (List.replicate 1 'u'),
       String.mk (List.replicate 2 'u')] :=
  (C4_three_transmissions (fun i => String.mk (List.replicate i 'u')) "GetQuote" 35000
    (fun a b hab => by
      have hd : List.replicate a 'u' = List.replicate b 'u' := congrArg String.data hab
      have := congrArg List.length hd
      simpa using this)).1

/-- Counterexample to C4 as stated: a possible `uuidv4()` draw (three distinct
well-formed version-4 identifiers) under which the three transmitted
identifiers are pairwise distinct yet not strictly increasing — random UUIDs
carry no order, unlike the spec's monotone counter. -/
theorem C4_counterexample :
    (runAllTimeouts (fun i =>
        if i = 0 then "c3a9f1d2-4b5e-4c6f-8a7b-1d2e3f405162"
        else if i = 1 then "0f1e2d3c-5a4b-4c3d-9e8f-a1b2c3d4e5f6"
        else "9d8c7b6a-5f4e-4d3c-8b2a-019283746556") 0 "GetQuote" 35000 2).1 =
      ["c3a9f1d2-4b5e-4c6f-8a7b-1d2e3f405162",
       "0f1e2d3c-5a4b-4c3d-9e8f-a1b2c3d4e5f6",
       "9d8c7b6a-5f4e-4d3c-8b2a-019283746556"] ∧
    (["c3a9f1d2-4b5e-4c6f-8a7b-1d2e3f405162",
      "0f1e2d3c-5a4b-4c3d-9e8f-a1b2c3d4e5f6",
      "9d8c7b6a-5f4e-4d3c-8b2a-019283746556"] : List String).Nodup ∧
    ¬ ("c3a9f1d2-4b5e-4c6f-8a7b-1d2e3f405162".data <
       "0f1e2d3c-5a4b-4c3d-9e8f-a1b2c3d4e5f6".data) := by
  refine ⟨rfl, by decide, by decide⟩

/-! Wire-envelope shapes of §6, used as inbound test vectors. -/

/-- The plain inbound success envelope. -/
def respEnvelope (rid : String) (payload : Json) : Json :=
  Json.obj [("Resp", Json.obj [("id", Json.str rid), ("resp", payload)])]

/-- The plain inbound error envelope. -/
def errEnvelope (rid : String) (payload : Json) : Json :=
  Json.obj [("Error", Json.obj [("id", Json.str rid), ("err", payload)])]

/-- The plain inbound notification envelope. -/
def notifEnvelope (payload : Json) : Json :=
  Json.obj [("Notif", payload)]

/-- An envelope nested under the `From` wrapper. -/
def fromWrapped (env : Json) : Json :=
  Json.obj [("From", env)]

/-- The tagged dispatch recognizes a success body. -/
theorem routeTagged_resp (rid : String) (payload : Json) :
    routeTagged (respEnvelope rid payload) =
      Routed.reply (Json.str rid) (some payload) false := by
  simp [routeTagged, respEnvelope, Json.getField, Json.truthy, List.find?]

/-- The tagged dispatch recognizes an error body. -/
theorem routeTagged_err (rid : String) (payload : Json) :
    routeTagged (errEnvelope rid payload) =
      Routed.reply (Json.str rid) (some payload) true := by
  simp [routeTagged, routeTaggedErr, errEnvelope, Json.getField, Json.truthy, List.find?]

/-- The tagged dispatch recognizes a truthy notification body. -/
theorem routeTagged_notif (np : Json) (hnp : np.truthy = true) :
    routeTagged (notifEnvelope np) = Routed.notif np := by
  simp [routeTagged, routeTaggedErr, routeTaggedNotif, notifEnvelope, Json.getField,
    List.find?, hnp]

/-- An envelope without a `From` field takes the plain fallback arm. -/
theorem routeEnvelope_no_from (env : Json) (hf : env.getField "From" = none) :
    routeEnvelope env = routeTagged env := by
  simp [routeEnvelope, hf]

/-- An envelope with a truthy `From` field dispatches on the wrapped value. -/
theorem routeEnvelope_from (inner : Json) (htr : inner.truthy = true) :
    routeEnvelope (fromWrapped inner) = routeTagged inner := by
  simp [routeEnvelope, fromWrapped, Json.getField, List.find?, htr]

/-- A reply envelope for a registered identifier settles the found entry and
deletes it. -/
theorem processMessage_reply_found (env : Json) (rid : String) (payload : Json)
    (isErr : Bool) (tbl : InflightTable) (entry : String × PendingExchange)
    (hroute : routeEnvelope env = Routed.reply (Json.str rid) (some payload) isErr)
    (hfind : tbl.find? (fun e => ridMatches (Json.str rid) e.1) = some entry) :
    processMessage env tbl =
      (tbl.eraseP (fun e => ridMatches (Json.str rid) e.1),
       if isErr then MsgEffect.reject entry.2.handle (jsonSerialize payload)
       else MsgEffect.resolve entry.2.handle (some payload)) := by
  simp [processMessage, hroute, hfind]

/-- Claim C7 (amended): an inbound success envelope matching a registered
identifier resolves the waiting caller with the `resp` payload verbatim and
removes the entry; an inbound error envelope matching a registered identifier
rejects the caller with an `Error` whose message is `JSON.stringify` of the
`err` payload — the payload value re-encoded as its JSON text, not the payload
itself — and removes the entry. -/
theorem C7_payload_routing (rid : String) (payload : Json) (tbl : InflightTable)
    (entry : String × PendingExchange)
    (hfind : tbl.find? (fun e => ridMatches (Json.str rid) e.1) = some entry) :
    processMessage (respEnvelope rid payload) tbl =
      (tbl.eraseP (fun e => ridMatches (Json.str rid) e.1),
       MsgEffect.resolve entry.2.handle (some payload)) ∧
    processMessage (errEnvelope rid payload) tbl =
      (tbl.eraseP (fun e => ridMatches (Json.str rid) e.1),
       MsgEffect.reject entry.2.handle (jsonSerialize payload)) := by
  have hresp : routeEnvelope (respEnvelope rid payload) =
      Routed.reply (Json.str rid) (some payload) false := by
    rw [routeEnvelope_no_from _ (by simp [respEnvelope, Json.getField, List.find?])]
    exact routeTagged_resp rid payload
  have herr : routeEnvelope (errEnvelope rid payload) =
      Routed.reply (Json.str rid) (some payload) true := by
    rw [routeEnvelope_no_from _ (by simp [errEnvelope, Json.getField, List.find?])]
    exact routeTagged_err rid payload
  constructor
  · rw [processMessage_reply_found _ rid payload false tbl entry hresp hfind]
    rfl
  · rw [processMessage_reply_found _ rid payload true tbl entry herr hfind]
    rfl

/-- Witness for C7 at the spec's quote scenario payload. -/
theorem C7_payload_routing_witness :
    processMessage
      (respEnvelope "u-1" (Json.obj [("recv_amount", Json.num 4350000), ("price", Json.num 43500)]))
      [("u-1", { handle := 0, timestamp := 0, method := "GetQuote",
                 params := Json.null, retries := 0 })] =
      ([], MsgEffect.resolve 0
        (some (Json.obj [("recv_amount", Json.num 4350000), ("price", Json.num 43500)]))) :=
  (C7_payload_routing "u-1"
    (Json.obj [("recv_amount", Json.num 4350000), ("price", Json.num 43500)])
    [("u-1", { handle := 0, timestamp := 0, method := "GetQuote",
               params := Json.null, retries := 0 })]
    ("u-1", { handle := 0, timestamp := 0, method := "GetQuote",
              params := Json.null, retries := 0 }) rfl).1

/-- Counterexample to C7 as stated: for the error payload `"x"` the code
rejects with the message `"\x22x\x22"` — `JSON.stringify` of the payload — and
not with the payload `"x"` itself: the err payload is re-encoded, not carried
verbatim. -/
theorem C7_counterexample :
    (processMessage
        (errEnvelope "id-1" (Json.str "x"))
        [("id-1", { handle := 0, timestamp := 0, method := "GetQuote",
                    params := Json.null, retries := 0 })]).2 =
      MsgEffect.reject 0 "\"x\"" ∧
    MsgEffect.reject 0 "\"x\"" ≠ MsgEffect.reject 0 "x" := by
  constructor
  · rfl
  · intro h
    injection h with h1 h2
    exact absurd h2 (by decide)

/-- Claim C8: every transmitted request serializes exactly as
`\x7b"Req":\x7b"id":<identifier>,"req":\x7b"<MethodName>":<params>\x7d\x7d\x7d`, and each of
the three inbound envelope kinds is accepted both plain and nested under a
`From` wrapper: success and error envelopes are routed to the matching pending
exchange, notifications are forwarded. -/
theorem C8_wire_envelope (m : String) (p : Json) (rid : String) (payload np : Json)
    (tbl : InflightTable) (entry : String × PendingExchange)
    (hfind : tbl.find? (fun e => ridMatches (Json.str rid) e.1) = some entry)
    (hnp : np.truthy = true) :
    jsonSerialize (buildRequestEnvelope m p rid) =
      "\x7b" ++ jsonQuote "Req" ++ ":" ++ "\x7b" ++ jsonQuote "id" ++ ":" ++ jsonQuote rid
        ++ "," ++ jsonQuote "req" ++ ":" ++ "\x7b" ++ jsonQuote m ++ ":" ++ jsonSerialize p
        ++ "\x7d" ++ "\x7d" ++ "\x7d" ∧
    jsonSerialize (buildRequestEnvelope "GetQuote"
        (Json.obj [("send_amount", Json.num 100000)]) "u-1") =
      "\x7b\"Req\":\x7b\"id\":\"u-1\",\"req\":\x7b\"GetQuote\":\x7b\"send_amount\":100000\x7d\x7d\x7d\x7d" ∧
    processMessage (respEnvelope rid payload) tbl =
      (tbl.eraseP (fun e => ridMatches (Json.str rid) e.1),
       MsgEffect.resolve entry.2.handle (some payload)) ∧
    processMessage (fromWrapped (respEnvelope rid payload)) tbl =
      (tbl.eraseP (fun e => ridMatches (Json.str rid) e.1),
       MsgEffect.resolve entry.2.handle (some payload)) ∧
    processMessage (errEnvelope rid payload) tbl =
      (tbl.eraseP (fun e => ridMatches (Json.str rid) e.1),
       MsgEffect.reject entry.2.handle (jsonSerialize payload)) ∧
    processMessage (fromWrapped (errEnvelope rid payload)) tbl =
      (tbl.eraseP (fun e => ridMatches (Json.str rid) e.1),
       MsgEffect.reject entry.2.handle (jsonSerialize payload)) ∧
    processMessage (notifEnvelope np) tbl = (tbl, MsgEffect.notify np) ∧
    processMessage (fromWrapped (notifEnvelope np)) tbl = (tbl, MsgEffect.notify np) := by
  have hrespPlain : routeEnvelope (respEnvelope rid payload) =
      Routed.reply (Json.str rid) (some payload) false := by
    rw [routeEnvelope_no_from _ (by simp [respEnvelope, Json.getField, List.find?])]
    exact routeTagged_resp rid payload
  have hrespFrom : routeEnvelope (fromWrapped (respEnvelope rid payload)) =
      Routed.reply (Json.str rid) (some payload) false := by
    rw [routeEnvelope_from _ (by simp [respEnvelope, Json.truthy])]
    exact routeTagged_resp rid payload
  have herrPlain : routeEnvelope (errEnvelope rid payload) =
      Routed.reply (Json.str rid) (some payload) true := by
    rw [routeEnvelope_no_from _ (by simp [errEnvelope, Json.getField, List.find?])]
    exact routeTagged_err rid payload
  have herrFrom : routeEnvelope (fromWrapped (errEnvelope rid payload)) =
      Routed.reply (Json.str rid) (some payload) true := by
    rw [routeEnvelope_from _ (by simp [errEnvelope, Json.truthy])]
    exact routeTagged_err rid payload
  have hnotifPlain : routeEnvelope (notifEnvelope np) = Routed.notif np := by
    rw [routeEnvelope_no_from _ (by simp [notifEnvelope, Json.getField, List.find?])]
    exact routeTagged_notif np hnp
  have hnotifFrom : routeEnvelope (fromWrapped (notifEnvelope np)) = Routed.notif np := by
    rw [routeEnvelope_from _ (by simp [notifEnvelope, Json.truthy])]
    exact routeTagged_notif np hnp
  refine ⟨?_, by decide, ?_, ?_, ?_, ?_, ?_, ?_⟩
  · apply String.ext
    simp [jsonSerialize, jsonSerializeFields, buildRequestEnvelope, String.data_append,
      List.append_assoc]
  · rw [processMessage_reply_found _ rid payload false tbl entry hrespPlain hfind]
    rfl
  · rw [processMessage_reply_found _ rid payload false tbl entry hrespFrom hfind]
    rfl
  · rw [processMessage_reply_found _ rid payload true tbl entry herrPlain hfind]
    rfl
  · rw [processMessage_reply_found _ rid payload true tbl entry herrFrom hfind]
    rfl
  · simp [processMessage, hnotifPlain]
  · simp [processMessage, hnotifFrom]

/-- Witness for C8 at a one-entry table and the `GetQuote` request. -/
theorem C8_wire_envelope_witness :
    jsonSerialize (buildRequestEnvelope "GetQuote"
        (Json.obj [("send_amount", Json.num 100000)]) "u-1") =
      "\x7b\"Req\":\x7b\"id\":\"u-1\",\"req\":\x7b\"GetQuote\":\x7b\"send_amount\":100000\x7d\x7d\x7d\x7d" ∧
    processMessage (fromWrapped (respEnvelope "u-1" (Json.num 7)))
      [("u-1", { handle := 3, timestamp := 0, method := "GetQuote",
                 params := Json.null, retries := 0 })] =
      ([], MsgEffect.resolve 3 (some (Json.num 7))) := by
  have h := C8_wire_envelope "GetQuote" (Json.obj [("send_amount", Json.num 100000)])
    "u-1" (Json.num 7) (Json.num 1)
    [("u-1", { handle := 3, timestamp := 0, method := "GetQuote",
               params := Json.null, retries := 0 })]
    ("u-1", { handle := 3, timestamp := 0, method := "GetQuote",
              params := Json.null, retries := 0 }) rfl (by decide)
  exact ⟨h.2.1, h.2.2.2.1⟩

/-- Inbound messages leave the armed pong timer and the termination state
untouched: they only refresh `lastHeartbeat`. -/
theorem hbRun_messages (ts : List ℚ) : ∀ s : HbState,
    (hbRun (ts.map HbEvent.message) s).pongDeadline = s.pongDeadline ∧
    (hbRun (ts.map HbEvent.message) s).terminatedAt = s.terminatedAt ∧
    (hbRun (ts.map HbEvent.message) s).wsOpen = s.wsOpen := by
  induction ts with
  | nil => intro s; exact ⟨rfl, rfl, rfl⟩
  | cons t ts ih =>
      intro s
      have hstep : hbRun ((t :: ts).map HbEvent.message) s =
          hbRun (ts.map HbEvent.message) (hbStep s (HbEvent.message t)) := rfl
      rw [hstep]
      have := ih (hbStep s (HbEvent.message t))
      simpa [hbStep] using this

/-- Claim C10: the defaults satisfy `PONG_TIMEOUT < HEARTBEAT_INTERVAL`
(7000 < 15000); the `message` handler never clears the armed pong timer — it
only refreshes `lastHeartbeat` — and no `pong` listener exists in the source;
hence after a ping at time `t` on an OPEN connection the deadline stays armed
at `t + PONG_TIMEOUT` across any inbound traffic, the pong callback fires then
and terminates the transport, and the next ping — the only event that re-arms
the timer — would only come at `t + HEARTBEAT_INTERVAL`, after the
termination. -/
theorem C10_pong_timer_always_fires (s : HbState) (t : ℚ) (ts : List ℚ)
    (hopen : s.wsOpen = true) :
    CONFIG_HEARTBEAT_INTERVAL = 15000 ∧
    CONFIG_PONG_TIMEOUT = 7000 ∧
    CONFIG_PONG_TIMEOUT < CONFIG_HEARTBEAT_INTERVAL ∧
    (∀ (s' : HbState) (u : ℚ),
      (hbStep s' (HbEvent.message u)).pongDeadline = s'.pongDeadline ∧
      (hbStep s' (HbEvent.message u)).lastHeartbeat = some u ∧
      (hbStep s' (HbEvent.message u)).terminatedAt = s'.terminatedAt) ∧
    (hbRun (HbEvent.ping t :: ts.map HbEvent.message) s).pongDeadline
      = some (t + CONFIG_PONG_TIMEOUT) ∧
    (hbStep (hbRun (HbEvent.ping t :: ts.map HbEvent.message) s)
        (HbEvent.pongFire (t + CONFIG_PONG_TIMEOUT))).terminatedAt
      = some (t + CONFIG_PONG_TIMEOUT) ∧
    t + CONFIG_PONG_TIMEOUT < t + CONFIG_HEARTBEAT_INTERVAL := by
  have hping : hbStep s (HbEvent.ping t) =
      { s with pongDeadline := some (t + CONFIG_PONG_TIMEOUT) } := by
    simp [hbStep, hopen]
  have hrun : hbRun (HbEvent.ping t :: ts.map HbEvent.message) s =
      hbRun (ts.map HbEvent.message) (hbStep s (HbEvent.ping t)) := rfl
  have hmsgs := hbRun_messages ts (hbStep s (HbEvent.ping t))
  have hdeadline : (hbRun (HbEvent.ping t :: ts.map HbEvent.message) s).pongDeadline
      = some (t + CONFIG_PONG_TIMEOUT) := by
    rw [hrun, hmsgs.1, hping]
  refine ⟨rfl, rfl, by norm_num [CONFIG_PONG_TIMEOUT, CONFIG_HEARTBEAT_INTERVAL], ?_, hdeadline, ?_, ?_⟩
  · intro s' u
    exact ⟨rfl, rfl, rfl⟩
  · simp [hbStep, hdeadline]
  · norm_num [CONFIG_PONG_TIMEOUT, CONFIG_HEARTBEAT_INTERVAL]

/-- Witness for C10: OPEN connection, ping at time 0, inbound messages at
times 1 and 2 — the pong timer still fires at 7000 and terminates. -/
theorem C10_pong_timer_always_fires_witness :
    (hbStep (hbRun (HbEvent.ping 0 :: [(1 : ℚ), 2].map HbEvent.message)
        { wsOpen := true, lastHeartbeat := some 0, pongDeadline := none,
          terminatedAt := none })
      (HbEvent.pongFire (0 + CONFIG_PONG_TIMEOUT))).terminatedAt
      = some (0 + CONFIG_PONG_TIMEOUT) :=
  (C10_pong_timer_always_fires
    { wsOpen := true, lastHeartbeat := some 0, pongDeadline := none, terminatedAt := none }
    0 [1, 2] rfl).2.2.2.2.2.1

/-- Claim C6 is the spec's intent but the code violates it: with the
connection OPEN, a ping at time 0 and an inbound message at time 1 — traffic
well inside every liveness window — the pong callback still fires at
`PONG_TIMEOUT = 7000` and terminates the transport, because the `message`
handler never clears `pongTimeoutId` and the source installs no `pong`
listener.  The claim says inbound traffic resets the liveness deadline so that
the termination does not fire within it; the code terminates regardless. -/
theorem C6_code_terminates_despite_traffic :
    (hbRun [HbEvent.ping 0, HbEvent.message 1, HbEvent.pongFire 7000]
        { wsOpen := true, lastHeartbeat := some 0, pongDeadline := none,
          terminatedAt := none }).terminatedAt = some 7000 ∧
    (hbRun [HbEvent.ping 0, HbEvent.message 1]
        { wsOpen := true, lastHeartbeat := some 0, pongDeadline := none,
          terminatedAt := none }).lastHeartbeat = some 1 := by
  constructor
  · norm_num [hbRun, hbStep, CONFIG_PONG_TIMEOUT, List.foldl]
  · norm_num [hbRun, hbStep, List.foldl]

end SideSwapBridge
